import Mathlib

/-!
# Verification of the ReAct workflow agent

Shallow embedding of the agent's control loop (`src/react_agent/graph.ts`)
and its tool catalogue (the tools module defining `TOOLS`), together with
proofs of the specified properties.

The embedding keeps the source's names where Lean allows it:
`routeModelOutput`, `callModel` (split into its input construction and its
state update), `moveItems`, `clearItems`, `addPendingItem`, and the zod
schemas `itemSchema` and `moveItemsSchema`.
-/

namespace ReactAgent

/-! ## JavaScript value semantics for the router condition

`routeModelOutput` tests `(lastMessage as AIMessage)?.tool_calls?.length || 0 > 0`.
Under JavaScript operator precedence this parses as
`(lastMessage?.tool_calls?.length) || (0 > 0)`.  We embed just enough of
JavaScript's value model (undefined, numbers, booleans; truthiness; the
short-circuiting `||` that returns one of its operands) to render that
expression faithfully. -/

/-- The JavaScript values that can arise while evaluating the router condition:
`undefined` (from a missing message or a missing `tool_calls` field),
a number (an array length), or a boolean (the literal comparison `0 > 0`). -/
inductive JsVal where
  | undef : JsVal
  | num : Nat → JsVal
  | bool : Bool → JsVal
deriving Repr, DecidableEq

/-- JavaScript truthiness: `undefined` and `0` are falsy; `false` is falsy. -/
def JsVal.truthy : JsVal → Bool
  | .undef => false
  | .num n => n != 0
  | .bool b => b

/-- JavaScript `a || b`: returns `a` when `a` is truthy, otherwise `b`. -/
def jsOr (a b : JsVal) : JsVal :=
  if a.truthy then a else b

/-! ## Messages and tool calls -/

/-- One tool invocation requested by the model: the correlation identifier
`id`, the operation `name`, and the raw argument payload. -/
structure ToolCall where
  id : String
  name : String
  args : String
deriving Repr, DecidableEq

/-- One conversation message.  `tool_calls` is present only on assistant
messages that request actions; `tool_call_id` only on tool-result messages,
where it carries the correlation identifier of the request it answers;
`status` marks a tool-result message as success- or failure-shaped. -/
structure Message where
  role : String
  content : String
  tool_calls : Option (List ToolCall) := none
  tool_call_id : Option String := none
  status : Option String := none
deriving Repr, DecidableEq

/-! ## The router (`routeModelOutput`, graph.ts lines 109-120) -/

/-- `messages[messages.length - 1]?.tool_calls?.length` as a JavaScript value:
`undefined` when the list is empty or the last message has no `tool_calls`
field, otherwise the length of the `tool_calls` array. -/
def lastToolCallsLength (messages : List Message) : JsVal :=
  match messages.getLast? with
  | none => .undef
  | some m =>
    match m.tool_calls with
    | none => .undef
    | some tcs => .num tcs.length

/-- `routeModelOutput` from graph.ts: if the last message is invoking tools,
route to `"tools"`, otherwise end the graph.  The condition is embedded with
JavaScript precedence: `(tool_calls?.length) || (0 > 0)`. -/
def routeModelOutput (messages : List Message) : String :=
  if (jsOr (lastToolCallsLength messages) (.bool (decide ((0 : Nat) > 0)))).truthy then
    "tools"
  else
    "__end__"

/-- The tool calls of the last message, with `undefined` collapsing to the
empty batch; this is the batch the tools node executes. -/
def lastToolCalls (messages : List Message) : List ToolCall :=
  ((messages.getLast?).bind Message.tool_calls).getD []

/-! ## The remote workflow store boundary (the tools module)

The tools module issues axios calls against `API_BASE_URL`.  Each tool's
execution is embedded as a function that, given an oracle
`respond : Request → String` standing for the remote store (the serialized
`response.data` the store would return for a request), produces the list of
remote requests it issues together with its string result. -/

/-- HTTP methods used by the tools module. -/
inductive Method where
  | get : Method
  | post : Method
  | patch : Method
  | delete : Method
deriving Repr, DecidableEq

/-- Request bodies sent by the tools module: the item payload of the two
create tools, or the `{itemIds, targetType}` payload of `move_items`. -/
inductive Body where
  | item : String → String → Body
  | move : List String → String → Body
deriving Repr, DecidableEq

/-- One remote HTTP call: method, full path, and optional body
(GET and DELETE carry none). -/
structure Request where
  method : Method
  path : String
  body : Option Body := none
deriving Repr, DecidableEq

/-- `API_BASE_URL` from the tools module. -/
def API_BASE_URL : String := "http://localhost:3000/api/workflows"

/-- The two workflow-item statuses, the values of the zod enums
`["pending", "completed"]` used by `moveItemsSchema` and `clear_items`. -/
inductive ItemType where
  | pending : ItemType
  | completed : ItemType
deriving Repr, DecidableEq

/-- The string value of an `ItemType`, as it appears in paths and bodies. -/
def ItemType.toStr : ItemType → String
  | .pending => "pending"
  | .completed => "completed"

/-! ### zod schemas and their validation

The schemas `itemSchema` and `moveItemsSchema` are declared in the tools
module.  Raw arguments are embedded as records of `Option` fields (a field
is `none` when the model's JSON payload omits it).  Validation follows
zod's object semantics: every declared field is required by default, a
missing field yields an issue with message `"Required"` at that field's
path, and an enum field must be one of its literal values.  The embedding
returns the first issue, in shape declaration order. -/

/-- A zod validation issue: the path of the offending field and a message. -/
structure ValidationIssue where
  path : List String
  message : String
deriving Repr, DecidableEq

/-- Raw arguments for `itemSchema` before validation. -/
structure RawItem where
  title : Option String := none
  description : Option String := none
deriving Repr, DecidableEq

/-- Parsed arguments of `itemSchema`: `title` and `description`, both
required strings. -/
structure ItemInput where
  title : String
  description : String
deriving Repr, DecidableEq

/-- Validation against `itemSchema = z.object({title: z.string(),
description: z.string()})`: both fields required, no defaulting. -/
def itemSchema.parse (raw : RawItem) : Except ValidationIssue ItemInput :=
  match raw.title with
  | none => .error ⟨["title"], "Required"⟩
  | some t =>
    match raw.description with
    | none => .error ⟨["description"], "Required"⟩
    | some d => .ok ⟨t, d⟩

/-- Raw arguments for `moveItemsSchema` before validation. -/
structure RawMove where
  itemIds : Option (List String) := none
  targetType : Option String := none
deriving Repr, DecidableEq

/-- Parsed arguments of `moveItemsSchema`. -/
structure MoveInput where
  itemIds : List String
  targetType : ItemType
deriving Repr, DecidableEq

/-- Validation against `moveItemsSchema = z.object({itemIds:
z.array(z.string()), targetType: z.enum(["pending", "completed"])})`:
`itemIds` must be present (any array of strings, the schema places no
non-emptiness constraint on it) and `targetType` must be one of the two
enum values. -/
def moveItemsSchema.parse (raw : RawMove) : Except ValidationIssue MoveInput :=
  match raw.itemIds with
  | none => .error ⟨["itemIds"], "Required"⟩
  | some ids =>
    match raw.targetType with
    | none => .error ⟨["targetType"], "Required"⟩
    | some t =>
      if t = "pending" then .ok ⟨ids, .pending⟩
      else if t = "completed" then .ok ⟨ids, .completed⟩
      else .error ⟨["targetType"], "Invalid enum value"⟩

/-- Raw arguments for the `clear_items` schema before validation. -/
structure RawClear where
  type : Option String := none
deriving Repr, DecidableEq

/-- Parsed arguments of the `clear_items` schema. -/
structure ClearInput where
  type : ItemType
deriving Repr, DecidableEq

/-- Validation against `z.object({type: z.enum(["pending", "completed"])})`. -/
def clearItemsSchema.parse (raw : RawClear) : Except ValidationIssue ClearInput :=
  match raw.type with
  | none => .error ⟨["type"], "Required"⟩
  | some t =>
    if t = "pending" then .ok ⟨.pending⟩
    else if t = "completed" then .ok ⟨.completed⟩
    else .error ⟨["type"], "Invalid enum value"⟩

/-! ### The six tool bodies -/

/-- `addPendingItem`: `axios.post(API_BASE_URL + "/pending", input)`,
returning the serialized response data. -/
def addPendingItem (respond : Request → String) (input : ItemInput) :
    List Request × String :=
  let req : Request :=
    { method := .post, path := API_BASE_URL ++ "/pending",
      body := some (.item input.title input.description) }
  ([req], respond req)

/-- `addCompletedItem`: `axios.post(API_BASE_URL + "/completed", input)`. -/
def addCompletedItem (respond : Request → String) (input : ItemInput) :
    List Request × String :=
  let req : Request :=
    { method := .post, path := API_BASE_URL ++ "/completed",
      body := some (.item input.title input.description) }
  ([req], respond req)

/-- `getPendingItems`: `axios.get(API_BASE_URL + "/pending")`. -/
def getPendingItems (respond : Request → String) :
    List Request × String :=
  let req : Request := { method := .get, path := API_BASE_URL ++ "/pending" }
  ([req], respond req)

/-- `getCompletedItems`: `axios.get(API_BASE_URL + "/completed")`. -/
def getCompletedItems (respond : Request → String) :
    List Request × String :=
  let req : Request := { method := .get, path := API_BASE_URL ++ "/completed" }
  ([req], respond req)

/-- `moveItems`: computes `sourceType` as `targetType === "completed" ?
"pending" : "completed"`, then `axios.patch(API_BASE_URL + "/" + sourceType,
{itemIds, targetType})`. -/
def moveItems (respond : Request → String) (input : MoveInput) :
    List Request × String :=
  let sourceType : String :=
    if input.targetType = .completed then "pending" else "completed"
  let req : Request :=
    { method := .patch, path := API_BASE_URL ++ "/" ++ sourceType,
      body := some (.move input.itemIds input.targetType.toStr) }
  ([req], respond req)

/-- `clearItems`: `axios.delete(API_BASE_URL + "/" + type)`. -/
def clearItems (respond : Request → String) (input : ClearInput) :
    List Request × String :=
  let req : Request :=
    { method := .delete, path := API_BASE_URL ++ "/" ++ input.type.toStr }
  ([req], respond req)

/-! ### The tool wrapper -/

/-- The outcome of a tool invocation: a successful serialized result, or a
structured validation error. -/
inductive ToolOutcome where
  | success : String → ToolOutcome
  | validationError : ValidationIssue → ToolOutcome
deriving Repr, DecidableEq

/-- Modelled from the spec: the `tool(...)` wrapper around each tool body
(from the agent framework, not part of this repository) validates the raw
arguments against the tool's declared zod schema before invoking the body;
"a validation failure short-circuits the remote call and yields a
structured Action Result describing which field(s) failed and why".  On
success the body runs and its serialized result is the outcome. -/
def runTool {Raw Input : Type}
    (parse : Raw → Except ValidationIssue Input)
    (body : (Request → String) → Input → List Request × String)
    (respond : Request → String) (raw : Raw) :
    List Request × ToolOutcome :=
  match parse raw with
  | .error issue => ([], .validationError issue)
  | .ok input =>
    let r := body respond input
    (r.1, .success r.2)

/-- The `add_pending_item` tool: `itemSchema` validation, then
`addPendingItem`. -/
def runAddPendingItem (respond : Request → String) (raw : RawItem) :
    List Request × ToolOutcome :=
  runTool itemSchema.parse addPendingItem respond raw

/-- The `move_items` tool: `moveItemsSchema` validation, then `moveItems`. -/
def runMoveItems (respond : Request → String) (raw : RawMove) :
    List Request × ToolOutcome :=
  runTool moveItemsSchema.parse moveItems respond raw

/-- The `clear_items` tool: its enum schema validation, then `clearItems`. -/
def runClearItems (respond : Request → String) (raw : RawClear) :
    List Request × ToolOutcome :=
  runTool clearItemsSchema.parse clearItems respond raw

/-! ## The orchestrator (`callModel`, graph.ts lines 11-106)

`callModel` builds a system message from the configured
`systemPromptTemplate` with `{system_time}` replaced by the current time
(`new Date().toISOString()`), followed by the static instruction text of
the template literal; it invokes the model on that system message followed
by the whole conversation, and returns `{ messages: [response] }` as its
state update. -/

/-- Whether the first list of characters is an initial segment of the
second. -/
def startsWithChars : List Char → List Char → Bool
  | [], _ => true
  | _ :: _, [] => false
  | p :: ps, c :: cs => p == c && startsWithChars ps cs

/-- The index of the first occurrence of the pattern `pat` in a character
list, if any. -/
def patIndex (pat : List Char) : List Char → Option Nat
  | [] => if startsWithChars pat [] then some 0 else none
  | c :: cs =>
    if startsWithChars pat (c :: cs) then some 0
    else (patIndex pat cs).map (· + 1)

/-- JavaScript `String.prototype.replace` with a string pattern: replaces
only the first occurrence of `pat` in `s` (the whole string when `pat`
does not occur). -/
def replaceFirst (s pat rep : String) : String :=
  match patIndex pat.data s.data with
  | none => s
  | some i =>
    ⟨s.data.take i ++ rep.data ++ s.data.drop (i + pat.data.length)⟩

/-- The static instruction text that follows the interpolated template in
`callModel`'s template literal (graph.ts lines 25-103), verbatim. -/
def PROMPT_SUFFIX : String :=
  "\n\nYou are a workflow management assistant that helps users organize and track tasks.\nYou have access to these tools:\n\n1. add_pending_item: Create new tasks in the \"to-do\" state\n   - Requires: title and description\n   - Use for: Creating new tasks that need to be done\n\n2. add_completed_item: Create new tasks in the \"done\" state\n   - Requires: title and description\n   - Use for: Recording already completed tasks\n\n3. get_pending_items: List all pending/to-do tasks\n   - Use for: Checking what needs to be done\n   - Returns: List of pending tasks with IDs\n\n4. get_completed_items: List all completed tasks\n   - Use for: Reviewing finished work\n   - Returns: List of completed tasks with IDs\n\n5. move_items: Change task status between pending and completed\n   - Requires: itemIds (array of IDs) and targetType (\"pending\" or \"completed\")\n   - Use for: Marking tasks as done or reopening tasks\n\n6. clear_items: Remove all items of a specific type\n   - Requires: type (\"pending\" or \"completed\")\n   - Use for: Bulk deletion of all pending or completed tasks\n   - Use with caution as this cannot be undone\n\nStrategy for common scenarios:\n\n1. When asked to create a task:\n   - Use add_pending_item for new work\n   - Use add_completed_item for finished work\n   - Always include both title and description\n\n2. When asked about tasks:\n   - Use get_pending_items or get_completed_items\n   - Parse and summarize the JSON response\n   - List tasks with their IDs for reference\n\n3. When updating task status:\n   - First get current tasks to confirm IDs\n   - Then use move_items with correct IDs and target state\n   - Confirm the change was successful\n\n4. When handling multiple tasks:\n   - Process them in order\n   - Keep track of task IDs\n   - Provide clear summaries of actions taken\n\n5. When clearing tasks:\n   - Always confirm with the user before using clear_items\n   - Specify which type (pending or completed) will be cleared\n   - Warn that this action cannot be undone\n\nAlways:\n- Confirm actions with clear responses\n- Include task IDs in your responses\n- Parse JSON responses into readable format\n- Ask for clarification if task details are unclear\n- Be cautious with destructive operations like clearing items\n\nResponse Format Guidelines:\n- Start with a brief summary (e.g., \"Found 12 pending tasks, mostly related to code review\")\n- Ask before showing detailed lists (e.g., \"Would you like to see all items in detail?\")\n- When listing items:\n  - Group similar items together\n  - Summarize repeated items (e.g., \"8 PR review tasks\")\n  - Only show full details when specifically requested\n- Keep responses concise and well-organized\n- Use natural language instead of rigid formatting\n- Avoid showing raw IDs unless necessary for a specific action\n\nRemember to always use the correct input format for each tool as shown in the examples above."

/-- The system directive sent on a model invocation: the configured
template with `{system_time}` replaced by the invocation's wall-clock
time, followed by the static instruction text. -/
def systemDirective (systemPromptTemplate now : String) : String :=
  replaceFirst systemPromptTemplate "{system_time}" now ++ PROMPT_SUFFIX

/-- The message list `callModel` passes to `model.invoke`: the freshly
built system message, then the whole conversation `state.messages`. -/
def callModelInput (systemPromptTemplate now : String)
    (messages : List Message) : List Message :=
  { role := "system", content := systemDirective systemPromptTemplate now }
    :: messages

/-- `callModel`'s state update, `{ messages: [response] }`: only the model
response is appended to the conversation. -/
def callModelUpdate (response : Message) : List Message :=
  [response]

/-! ## The tool executor

`ToolNode` from `@langchain/langgraph/prebuilt` is a library component, not
part of this repository; it is modelled from the spec below. -/

/-- Modelled from the spec: how the Tool Executor wraps one request's
outcome.  A success becomes a tool-result message carrying the serialized
result; a caught failure (transport error, non-success status, thrown
error) becomes a failure-shaped tool-result message carrying the failure
detail.  Either way the message is tagged with the request's correlation
identifier. -/
def toolResultMessage (call : ToolCall) : Except String String → Message
  | .ok out =>
    { role := "tool", content := out,
      tool_call_id := some call.id, status := some "success" }
  | .error e =>
    { role := "tool", content := "Error: " ++ e,
      tool_call_id := some call.id, status := some "error" }

/-- Modelled from the spec: the Tool Executor (`ToolNode` over `TOOLS`,
not part of this repository).  Given a per-call runner (which yields the
remote requests a call issues and its success-or-caught-failure outcome),
it executes each tool call of the batch independently, in list order, and
emits one tool-result message per call, tagged with that call's
correlation identifier; a failure of one call is captured in its own
result and does not affect the others. -/
def executeBatch (run : ToolCall → List Request × Except String String)
    (calls : List ToolCall) : List Message × List Request :=
  (calls.map (fun c => toolResultMessage c (run c).2),
   (calls.map (fun c => (run c).1)).flatten)

/-! ## The control-flow graph (`workflow`, graph.ts lines 124-140)

The graph has nodes `callModel` and `tools`, entry edge
`__start__ → callModel`, conditional edges from `callModel` given by
`routeModelOutput` (to `tools` or `__end__`), and the edge
`tools → callModel`. -/

/-- The graph position between steps: about to run `callModel`, about to
run the tools node, or terminated. -/
inductive Node where
  | model : Node
  | tools : Node
  | terminal : Node
deriving Repr, DecidableEq

/-- A loop state: the current graph position and the conversation. -/
structure AgentState where
  node : Node
  messages : List Message
deriving Repr, DecidableEq

/-- Modelled from the spec: one step of the StateGraph runtime executing
`workflow` (the runtime is library code; the node wiring is graph.ts lines
124-140).  A `callModel` step invokes the model on `callModelInput`,
appends the update `callModelUpdate response` to the conversation, and
follows the conditional edge chosen by `routeModelOutput`; a `tools` step
executes the last message's tool calls as a batch, appends all resulting
tool-result messages, and follows the edge back to `callModel`.  The
second component lists the remote requests issued during the step. -/
def graphStep (model : List Message → Message)
    (systemPromptTemplate now : String)
    (run : ToolCall → List Request × Except String String) :
    AgentState → AgentState × List Request
  | ⟨.model, msgs⟩ =>
    let response := model (callModelInput systemPromptTemplate now msgs)
    let msgs2 := msgs ++ callModelUpdate response
    if routeModelOutput msgs2 = "tools" then
      (⟨.tools, msgs2⟩, [])
    else
      (⟨.terminal, msgs2⟩, [])
  | ⟨.tools, msgs⟩ =>
    let r := executeBatch run (lastToolCalls msgs)
    (⟨.model, msgs ++ r.1⟩, r.2)
  | ⟨.terminal, msgs⟩ => (⟨.terminal, msgs⟩, [])

/-- The other workflow-item status; used to state that an operation on one
status never touches the other. -/
def ItemType.other : ItemType → ItemType
  | .pending => .completed
  | .completed => .pending

/-- A scripted model for concrete loop runs: it always answers with a
single tool call `call_1` requesting `get_pending_items`. -/
def scriptedModel : List Message → Message := fun _ =>
  { role := "assistant", content := "",
    tool_calls := some [⟨"call_1", "get_pending_items", "{}"⟩] }

/-- A scripted per-call runner for concrete loop runs: every tool call
issues no remote request and succeeds with an empty list. -/
def scriptedRun : ToolCall → List Request × Except String String := fun _ =>
  ([], .ok "[]")

/-! ## Helper lemmas -/

theorem getLast?_append_singleton {α : Type} (l : List α) (a : α) :
    (l ++ [a]).getLast? = some a := by
  induction l with
  | nil => rfl
  | cons x xs ih =>
    cases xs with
    | nil => rfl
    | cons y ys => simpa using ih

theorem lastToolCalls_append (msgs : List Message) (m : Message) :
    lastToolCalls (msgs ++ [m]) = m.tool_calls.getD [] := by
  simp [lastToolCalls, getLast?_append_singleton]

theorem routeModelOutput_append (msgs : List Message) (m : Message) :
    routeModelOutput (msgs ++ [m]) =
      if m.tool_calls.getD [] = [] then "__end__" else "tools" := by
  simp only [routeModelOutput, lastToolCallsLength, getLast?_append_singleton]
  cases h : m.tool_calls with
  | none => simp [jsOr, JsVal.truthy]
  | some tcs =>
    cases tcs with
    | nil => simp [jsOr, JsVal.truthy]
    | cons c cs => simp [jsOr, JsVal.truthy]

/-! ## The claims -/

/-- C10: `routeModelOutput` is total and always returns `"tools"` or
`"__end__"`: for every state whose message list is empty or whose last
message has no `tool_calls` field it returns `"__end__"` without faulting,
even though its condition parses as `(tool_calls?.length || (0 > 0))`
under operator precedence. -/
theorem routeModelOutput_total (messages : List Message) :
    (routeModelOutput messages = "tools" ∨
      routeModelOutput messages = "__end__") ∧
    routeModelOutput ([] : List Message) = "__end__" ∧
    (∀ (ms : List Message) (m : Message),
      routeModelOutput (ms ++ [{ m with tool_calls := none }]) = "__end__") := by
  refine ⟨?_, rfl, ?_⟩
  · unfold routeModelOutput
    split
    · exact .inl rfl
    · exact .inr rfl
  · intro ms m
    rw [routeModelOutput_append]
    simp

/-- C2: the router returns `"__end__"` exactly when the model response
carries zero tool calls and `"tools"` exactly when it carries at least
one; accordingly a `callModel` step whose response has no tool calls
reaches the terminal node; a `callModel` step issues no remote request
itself, and from the terminal node no further message or request ever
arises. -/
theorem routeModelOutput_ends_iff_no_tool_calls
    (model : List Message → Message) (template now : String)
    (run : ToolCall → List Request × Except String String)
    (msgs : List Message) :
    (routeModelOutput (msgs ++ [model (callModelInput template now msgs)]) =
        "__end__" ↔
      (model (callModelInput template now msgs)).tool_calls.getD [] = []) ∧
    ((graphStep model template now run ⟨.model, msgs⟩).1.node = .terminal ↔
      (model (callModelInput template now msgs)).tool_calls.getD [] = []) ∧
    (graphStep model template now run ⟨.model, msgs⟩).2 = [] ∧
    (∀ c : List Message,
      graphStep model template now run ⟨.terminal, c⟩ = (⟨.terminal, c⟩, [])) := by
  have hroute :=
    routeModelOutput_append msgs (model (callModelInput template now msgs))
  by_cases h :
      (model (callModelInput template now msgs)).tool_calls.getD [] = []
  · rw [if_pos h] at hroute
    refine ⟨by simp [hroute, h], ?_, ?_, fun c => rfl⟩
    · simp only [graphStep, callModelUpdate]
      rw [hroute]
      simp [h]
    · simp only [graphStep, callModelUpdate]
      rw [hroute]
      simp
  · rw [if_neg h] at hroute
    refine ⟨by simp [hroute, h], ?_, ?_, fun c => rfl⟩
    · simp only [graphStep, callModelUpdate]
      rw [hroute]
      simp [h]
    · simp only [graphStep, callModelUpdate]
      rw [hroute]
      simp

/-- C3: for every input, `moveItems` issues exactly one PATCH request, to
the path of the status opposite to `targetType` (`targetType` completed
patches `/pending`, `targetType` pending patches `/completed`), with the
input carried unchanged in the body. -/
theorem moveItems_one_patch_to_opposite
    (respond : Request → String) (ids : List String) :
    (∀ t : ItemType, (moveItems respond ⟨ids, t⟩).1.length = 1) ∧
    (moveItems respond ⟨ids, .completed⟩).1 =
      [{ method := .patch, path := API_BASE_URL ++ "/pending",
         body := some (.move ids "completed") }] ∧
    (moveItems respond ⟨ids, .pending⟩).1 =
      [{ method := .patch, path := API_BASE_URL ++ "/completed",
         body := some (.move ids "pending") }] := by
  exact ⟨fun t => by cases t <;> rfl, rfl, rfl⟩

/-- C7: for every input type, `clearItems` issues exactly one DELETE
request, to the path of that type, and returns the serialized deletion
outcome; no issued request targets the path of the other status. -/
theorem clearItems_one_delete_own_path
    (respond : Request → String) (t : ItemType) :
    (clearItems respond ⟨t⟩).1 =
      [{ method := .delete, path := API_BASE_URL ++ "/" ++ t.toStr }] ∧
    (clearItems respond ⟨t⟩).2 =
      respond { method := .delete, path := API_BASE_URL ++ "/" ++ t.toStr } ∧
    (∀ r ∈ (clearItems respond ⟨t⟩).1,
      r.path ≠ API_BASE_URL ++ "/" ++ t.other.toStr) := by
  cases t <;>
    refine ⟨rfl, rfl, ?_⟩ <;>
    · intro r hr
      simp only [clearItems, List.mem_singleton] at hr
      subst hr
      decide

/-- C4 counterexample: `move_items` invoked with an empty `itemIds` array
and a valid `targetType` passes schema validation and issues a remote
PATCH request, instead of yielding a validation-error result with no
remote call. -/
theorem runMoveItems_empty_itemIds_calls_remote :
    runMoveItems (fun _ => "[]") ⟨some [], some "completed"⟩ =
      ([{ method := .patch, path := API_BASE_URL ++ "/pending",
          body := some (.move [] "completed") }], .success "[]") := by
  rfl

/-- C4 amended: `moveItemsSchema` requires `itemIds` to be present as an
array of strings but places no non-emptiness constraint on it, so a
`move_items` request with an empty `itemIds` and a valid `targetType`
passes validation, issues the usual single PATCH request to the opposite
status's path, and yields a success-shaped result. -/
theorem runMoveItems_accepts_empty_itemIds
    (respond : Request → String) (t : ItemType) :
    moveItemsSchema.parse ⟨some [], some t.toStr⟩ = .ok ⟨[], t⟩ ∧
    (runMoveItems respond ⟨some [], some t.toStr⟩).1.length = 1 ∧
    (runMoveItems respond ⟨some [], some t.toStr⟩).2 =
      .success (respond
        { method := .patch,
          path := API_BASE_URL ++ "/" ++ t.other.toStr,
          body := some (.move [] t.toStr) }) := by
  cases t <;> exact ⟨rfl, rfl, rfl⟩

/-- C6: `add_pending_item` invoked without the required `description`
field (and likewise without `title`) is rejected by validation: the
structured error names the missing field with message "Required", no
remote request is issued, and the missing field is never silently
defaulted. -/
theorem runAddPendingItem_missing_field_rejected
    (respond : Request → String) (tv : String) (d : Option String) :
    (runAddPendingItem respond ⟨some tv, none⟩).1 = [] ∧
    (runAddPendingItem respond ⟨some tv, none⟩).2 =
      .validationError ⟨["description"], "Required"⟩ ∧
    (runAddPendingItem respond ⟨none, d⟩).1 = [] ∧
    (runAddPendingItem respond ⟨none, d⟩).2 =
      .validationError ⟨["title"], "Required"⟩ := by
  exact ⟨rfl, rfl, rfl, rfl⟩

/-- C5: the tool executor handles each request of a batch independently:
the batch yields exactly one result per request, the result at each index
is determined by that index's request alone, a caught failure becomes a
failure-shaped result tagged with that request's correlation identifier,
and after the tools step the loop always continues with the orchestrator
(the session is not terminated). -/
theorem executeBatch_isolates_failures
    (run : ToolCall → List Request × Except String String)
    (calls : List ToolCall) :
    (executeBatch run calls).1.length = calls.length ∧
    (∀ i : Nat, (executeBatch run calls).1[i]? =
      (calls[i]?).map (fun c => toolResultMessage c (run c).2)) ∧
    (∀ (c : ToolCall) (e : String),
      toolResultMessage c (.error e) =
        { role := "tool", content := "Error: " ++ e,
          tool_call_id := some c.id, status := some "error" }) ∧
    (∀ (model : List Message → Message) (template now : String)
        (msgs : List Message),
      (graphStep model template now run ⟨.tools, msgs⟩).1.node = .model) := by
  refine ⟨by simp [executeBatch], ?_, fun c e => rfl,
    fun model template now msgs => rfl⟩
  intro i
  simp [executeBatch, List.getElem?_map]

/-- C9: the conversation is append-only: every step of the graph leaves
the existing message sequence intact at the front and only adds new
messages after it. -/
theorem graphStep_append_only
    (model : List Message → Message) (template now : String)
    (run : ToolCall → List Request × Except String String)
    (s : AgentState) :
    ∃ appended : List Message,
      (graphStep model template now run s).1.messages =
        s.messages ++ appended := by
  obtain ⟨node, msgs⟩ := s
  cases node with
  | model =>
    refine ⟨callModelUpdate (model (callModelInput template now msgs)), ?_⟩
    simp only [graphStep]
    split <;> rfl
  | tools =>
    exact ⟨(executeBatch run (lastToolCalls msgs)).1, rfl⟩
  | terminal =>
    exact ⟨[], (List.append_nil msgs).symm⟩

/-- C1: when the model response of an orchestrator turn carries n ≥ 1
tool calls, the router sends control to the tools node, the tools step
appends exactly n tool-result messages — one per call, in order, each
tagged with its call's correlation identifier — and control returns to
the orchestrator only then. -/
theorem loop_resolves_every_tool_call
    (model : List Message → Message) (template now : String)
    (run : ToolCall → List Request × Except String String)
    (msgs : List Message) (tcs : List ToolCall)
    (h : (model (callModelInput template now msgs)).tool_calls = some tcs)
    (hne : tcs ≠ []) :
    (graphStep model template now run ⟨.model, msgs⟩).1.node = .tools ∧
    (graphStep model template now run
      ((graphStep model template now run ⟨.model, msgs⟩).1)).1.node = .model ∧
    (graphStep model template now run
      ((graphStep model template now run ⟨.model, msgs⟩).1)).1.messages =
        (graphStep model template now run ⟨.model, msgs⟩).1.messages ++
          (executeBatch run tcs).1 ∧
    (executeBatch run tcs).1.length = tcs.length ∧
    (executeBatch run tcs).1.map Message.tool_call_id =
      tcs.map (fun c => some c.id) := by
  have hroute : routeModelOutput
      (msgs ++ callModelUpdate (model (callModelInput template now msgs))) =
        "tools" := by
    rw [callModelUpdate, routeModelOutput_append, h]
    simp [hne]
  have hs1 : (graphStep model template now run ⟨.model, msgs⟩).1 =
      ⟨.tools, msgs ++ [model (callModelInput template now msgs)]⟩ := by
    simp only [graphStep, callModelUpdate] at hroute ⊢
    rw [if_pos hroute]
  have hlast :
      lastToolCalls (msgs ++ [model (callModelInput template now msgs)]) =
        tcs := by
    rw [lastToolCalls_append, h]
    rfl
  rw [hs1]
  refine ⟨rfl, rfl, ?_, by simp [executeBatch], ?_⟩
  · simp only [graphStep]
    rw [hlast]
  · simp only [executeBatch, List.map_map]
    apply List.map_congr_left
    intro c _
    cases h2 : (run c).2 <;> simp [toolResultMessage, Function.comp, h2]

/-- Witness for C1: a concrete run in which the scripted model requests
exactly one tool call. -/
theorem loop_resolves_every_tool_call_witness :
    (scriptedModel (callModelInput "t" "now" [])).tool_calls =
      some [⟨"call_1", "get_pending_items", "{}"⟩] ∧
    ([(⟨"call_1", "get_pending_items", "{}"⟩ : ToolCall)] ≠ []) ∧
    (graphStep scriptedModel "t" "now" scriptedRun ⟨.model, []⟩).1.node =
      .tools ∧
    (graphStep scriptedModel "t" "now" scriptedRun
      ((graphStep scriptedModel "t" "now" scriptedRun ⟨.model, []⟩).1)).1.node =
        .model ∧
    (graphStep scriptedModel "t" "now" scriptedRun
      ((graphStep scriptedModel "t" "now" scriptedRun ⟨.model, []⟩).1)).1.messages =
        (graphStep scriptedModel "t" "now" scriptedRun ⟨.model, []⟩).1.messages ++
          (executeBatch scriptedRun [⟨"call_1", "get_pending_items", "{}"⟩]).1 ∧
    (executeBatch scriptedRun [⟨"call_1", "get_pending_items", "{}"⟩]).1.length =
      ([(⟨"call_1", "get_pending_items", "{}"⟩ : ToolCall)]).length ∧
    (executeBatch scriptedRun
        [⟨"call_1", "get_pending_items", "{}"⟩]).1.map Message.tool_call_id =
      [some "call_1"] := by
  have h := loop_resolves_every_tool_call scriptedModel "t" "now" scriptedRun
    [] [⟨"call_1", "get_pending_items", "{}"⟩] rfl (by decide)
  exact ⟨rfl, by decide, h.1, h.2.1, h.2.2.1, h.2.2.2.1,
    by simpa using h.2.2.2.2⟩

/-- C8: on each model invocation the system directive equals the
configured template with the invocation's wall-clock time substituted at
the `{system_time}` placeholder followed by the static instruction text,
rebuilt from the time passed to that invocation (two invocations with
different times produce different directives); the system message is
prepended to the model input while the persisted conversation update
holds only the model response. -/
theorem callModel_fresh_system_directive
    (template now : String) (msgs : List Message) (response : Message) :
    callModelInput template now msgs =
      ({ role := "system", content := systemDirective template now } :
        Message) :: msgs ∧
    systemDirective template now =
      replaceFirst template "{system_time}" now ++ PROMPT_SUFFIX ∧
    systemDirective "System time: {system_time}" now =
      "System time: " ++ now ++ PROMPT_SUFFIX ∧
    systemDirective "System time: {system_time}" "2024-01-01T00:00:00Z" ≠
      systemDirective "System time: {system_time}" "2025-01-01T00:00:00Z" ∧
    callModelUpdate response = [response] ∧
    (graphStep (fun _ => response) template now (fun _ => ([], .ok ""))
      ⟨.model, msgs⟩).1.messages = msgs ++ [response] := by
  refine ⟨rfl, rfl, ?_, by decide, rfl, ?_⟩
  · have hidx : patIndex "{system_time}".data
        "System time: {system_time}".data = some 13 := by decide
    have htake : "System time: {system_time}".data.take 13 =
        "System time: ".data := by decide
    have hdrop : "System time: {system_time}".data.drop
        (13 + "{system_time}".data.length) = [] := by decide
    simp only [systemDirective, replaceFirst, hidx, htake, hdrop,
      List.append_nil]
    apply String.ext
    simp [String.data_append]
  · simp only [graphStep, callModelUpdate]
    split <;> rfl

end ReactAgent
